import Mathlib

/-!
Shallow embedding of the LibraryFlow library-management server
(shared/schema.ts, server/storage.ts DatabaseStorage, server/routes.ts).

Modelling conventions:
- SQL decimal(10,2) money columns (parsed with parseFloat and written back
  with toString in routes.ts) are modelled as exact rationals.
- JS Date / SQL timestamp values are modelled as Nat milliseconds; the
  handler passes the current instant as an explicit argument.
- Postgres serial primary keys are modelled with explicit next-id counters
  on the store state.
- Partial row updates (drizzle .set(updates) with a Partial<T>) are
  modelled as structures of Option fields: a present field overrides the
  row, an absent field leaves it.
- A nullable column is an Option; a Partial update of a nullable column is
  therefore an Option (Option _).
-/

namespace LibraryFlow

/-- One day in milliseconds: the unit behind dueDate = now + 14 days
(routes.ts) and the BETWEEN NOW() AND NOW() + INTERVAL 3 days window
(storage.ts getDashboardStats). -/
def dayMs : Nat := 86400000

/-- users table (shared/schema.ts): id, email, role (default user),
outstandingFines decimal (nullable, default 0.00), timestamps. -/
structure User where
  id : String
  email : Option String := none
  role : String := "user"
  outstandingFines : Option ℚ := some 0
  createdAt : Nat := 0
  updatedAt : Nat := 0
deriving Repr, DecidableEq

/-- books table (shared/schema.ts). -/
structure Book where
  id : Nat
  title : String
  author : String
  isbn : Option String := none
  genre : String
  description : Option String := none
  coverUrl : Option String := none
  publicationYear : Option Int := none
  totalCopies : Int := 1
  availableCopies : Int := 1
  createdAt : Nat := 0
  updatedAt : Nat := 0
deriving Repr, DecidableEq

/-- reservations table (shared/schema.ts): status is one of active,
completed, cancelled; reservedAt defaults to now; dueDate not null. -/
structure Reservation where
  id : Nat
  userId : String
  bookId : Nat
  status : String := "active"
  reservedAt : Nat := 0
  dueDate : Nat
  completedAt : Option Nat := none
deriving Repr, DecidableEq

/-- fines table (shared/schema.ts): status is unpaid or paid. -/
structure Fine where
  id : Nat
  userId : String
  reservationId : Option Nat := none
  amount : ℚ
  reason : String := ""
  status : String := "unpaid"
  createdAt : Nat := 0
  paidAt : Option Nat := none
deriving Repr, DecidableEq

/-- payments table (shared/schema.ts): status is pending, completed or
failed. -/
structure Payment where
  id : Nat
  userId : String
  fineId : Option Nat := none
  amount : ℚ
  stripePaymentIntentId : Option String := none
  status : String := "pending"
  createdAt : Nat := 0
  completedAt : Option Nat := none
deriving Repr, DecidableEq

/-- The relational store: the five tables plus next-serial counters. -/
structure DB where
  users : List User := []
  books : List Book := []
  reservations : List Reservation := []
  fines : List Fine := []
  payments : List Payment := []
  nextBookId : Nat := 1
  nextReservationId : Nat := 1
  nextPaymentId : Nat := 1
deriving Repr, DecidableEq

/-- InsertBook = insertBookSchema (all book columns minus id and
timestamps; totalCopies and availableCopies default to 1). -/
structure InsertBook where
  title : String
  author : String
  isbn : Option String := none
  genre : String
  description : Option String := none
  coverUrl : Option String := none
  publicationYear : Option Int := none
  totalCopies : Int := 1
  availableCopies : Int := 1
deriving Repr, DecidableEq

/-- InsertReservation = insertReservationSchema (reservations minus id and
reservedAt, which defaults to now at insert time). -/
structure InsertReservation where
  userId : String
  bookId : Nat
  status : String := "active"
  dueDate : Nat
  completedAt : Option Nat := none
deriving Repr, DecidableEq

/-- InsertPayment = insertPaymentSchema (payments minus id and createdAt). -/
structure InsertPayment where
  userId : String
  fineId : Option Nat := none
  amount : ℚ
  stripePaymentIntentId : Option String := none
  status : String := "pending"
  completedAt : Option Nat := none
deriving Repr, DecidableEq

/-- Partial<User> as used by storage.updateUser. -/
structure UserUpd where
  email : Option (Option String) := none
  role : Option String := none
  outstandingFines : Option (Option ℚ) := none
deriving Repr, DecidableEq

/-- Partial<Book> as used by storage.updateBook. -/
structure BookUpd where
  title : Option String := none
  author : Option String := none
  isbn : Option (Option String) := none
  genre : Option String := none
  description : Option (Option String) := none
  coverUrl : Option (Option String) := none
  publicationYear : Option (Option Int) := none
  totalCopies : Option Int := none
  availableCopies : Option Int := none
deriving Repr, DecidableEq

/-- Partial<Reservation> as used by storage.updateReservation (the PUT
handler forwards the raw request body). -/
structure ReservationUpd where
  userId : Option String := none
  bookId : Option Nat := none
  status : Option String := none
  reservedAt : Option Nat := none
  dueDate : Option Nat := none
  completedAt : Option (Option Nat) := none
deriving Repr, DecidableEq

/-- Partial<Payment> as used by storage.updatePayment. -/
structure PaymentUpd where
  status : Option String := none
  completedAt : Option (Option Nat) := none
deriving Repr, DecidableEq

/-- db.update(users).set({...updates, updatedAt: new Date()}) on one row. -/
def applyUserUpd (upd : UserUpd) (now : Nat) (u : User) : User :=
  { u with
    email := upd.email.getD u.email
    role := upd.role.getD u.role
    outstandingFines := upd.outstandingFines.getD u.outstandingFines
    updatedAt := now }

/-- db.update(books).set({...updates, updatedAt: new Date()}) on one row. -/
def applyBookUpd (upd : BookUpd) (now : Nat) (b : Book) : Book :=
  { b with
    title := upd.title.getD b.title
    author := upd.author.getD b.author
    isbn := upd.isbn.getD b.isbn
    genre := upd.genre.getD b.genre
    description := upd.description.getD b.description
    coverUrl := upd.coverUrl.getD b.coverUrl
    publicationYear := upd.publicationYear.getD b.publicationYear
    totalCopies := upd.totalCopies.getD b.totalCopies
    availableCopies := upd.availableCopies.getD b.availableCopies
    updatedAt := now }

/-- db.update(reservations).set(updates) on one row (no updatedAt column). -/
def applyReservationUpd (upd : ReservationUpd) (r : Reservation) : Reservation :=
  { r with
    userId := upd.userId.getD r.userId
    bookId := upd.bookId.getD r.bookId
    status := upd.status.getD r.status
    reservedAt := upd.reservedAt.getD r.reservedAt
    dueDate := upd.dueDate.getD r.dueDate
    completedAt := upd.completedAt.getD r.completedAt }

/-- db.update(payments).set(updates) on one row. -/
def applyPaymentUpd (upd : PaymentUpd) (p : Payment) : Payment :=
  { p with
    status := upd.status.getD p.status
    completedAt := upd.completedAt.getD p.completedAt }

/-- DatabaseStorage.getUser: select from users where id = id (first row). -/
def getUser (db : DB) (id : String) : Option User :=
  db.users.find? (fun u => u.id == id)

/-- DatabaseStorage.getAllUsers (ordering by createdAt desc is irrelevant
to the verified properties and is not modelled). -/
def getAllUsers (db : DB) : List User :=
  db.users

/-- DatabaseStorage.updateUser: update users set {...updates, updatedAt}
where id = id. -/
def updateUser (db : DB) (id : String) (upd : UserUpd) (now : Nat) : DB :=
  { db with users := db.users.map (fun u => if u.id == id then applyUserUpd upd now u else u) }

/-- DatabaseStorage.getBook: select from books where id = id (first row). -/
def getBook (db : DB) (id : Nat) : Option Book :=
  db.books.find? (fun b => b.id == id)

/-- DatabaseStorage.createBook: insert into books values (book) returning;
serial id, timestamps default to now. -/
def createBook (db : DB) (ins : InsertBook) (now : Nat) : Book × DB :=
  let b : Book :=
    { id := db.nextBookId
      title := ins.title
      author := ins.author
      isbn := ins.isbn
      genre := ins.genre
      description := ins.description
      coverUrl := ins.coverUrl
      publicationYear := ins.publicationYear
      totalCopies := ins.totalCopies
      availableCopies := ins.availableCopies
      createdAt := now
      updatedAt := now }
  (b, { db with books := db.books ++ [b], nextBookId := db.nextBookId + 1 })

/-- DatabaseStorage.updateBook: update books set {...updates, updatedAt}
where id = id. -/
def updateBook (db : DB) (id : Nat) (upd : BookUpd) (now : Nat) : DB :=
  { db with books := db.books.map (fun b => if b.id == id then applyBookUpd upd now b else b) }

/-- DatabaseStorage.deleteBook: delete from books where id = id. -/
def deleteBook (db : DB) (id : Nat) : DB :=
  { db with books := db.books.filter (fun b => !(b.id == id)) }

/-- DatabaseStorage.updateBookAvailability: update books set
{availableCopies, updatedAt} where id = id. -/
def updateBookAvailability (db : DB) (id : Nat) (available : Int) (now : Nat) : DB :=
  { db with books := db.books.map (fun b =>
      if b.id == id then { b with availableCopies := available, updatedAt := now } else b) }

/-- DatabaseStorage.createReservation: insert into reservations returning;
serial id, reservedAt defaults to now. -/
def createReservation (db : DB) (ins : InsertReservation) (now : Nat) : Reservation × DB :=
  let r : Reservation :=
    { id := db.nextReservationId
      userId := ins.userId
      bookId := ins.bookId
      status := ins.status
      reservedAt := now
      dueDate := ins.dueDate
      completedAt := ins.completedAt }
  (r, { db with reservations := db.reservations ++ [r],
                nextReservationId := db.nextReservationId + 1 })

/-- DatabaseStorage.updateReservation: update reservations set updates
where id = id. -/
def updateReservation (db : DB) (id : Nat) (upd : ReservationUpd) : DB :=
  { db with reservations := db.reservations.map (fun r =>
      if r.id == id then applyReservationUpd upd r else r) }

/-- DatabaseStorage.createPayment: insert into payments returning; serial
id, createdAt defaults to now. -/
def createPayment (db : DB) (ins : InsertPayment) (now : Nat) : Payment × DB :=
  let p : Payment :=
    { id := db.nextPaymentId
      userId := ins.userId
      fineId := ins.fineId
      amount := ins.amount
      stripePaymentIntentId := ins.stripePaymentIntentId
      status := ins.status
      createdAt := now
      completedAt := ins.completedAt }
  (p, { db with payments := db.payments ++ [p], nextPaymentId := db.nextPaymentId + 1 })

/-- DatabaseStorage.updatePayment: update payments set updates where
id = id. -/
def updatePayment (db : DB) (id : Nat) (upd : PaymentUpd) : DB :=
  { db with payments := db.payments.map (fun p =>
      if p.id == id then applyPaymentUpd upd p else p) }

/-- DatabaseStorage.getUserPayments: select from payments where
userId = userId order by createdAt desc. Rows are appended with serial
ids and createdAt = now, so descending createdAt order is the reverse of
insertion order. -/
def getUserPayments (db : DB) (userId : String) : List Payment :=
  (db.payments.filter (fun p => p.userId == userId)).reverse

/-- DatabaseStorage.getTotalFines: COALESCE(SUM(amount), 0) over fines
where userId = userId and status = unpaid. -/
def getTotalFines (db : DB) (userId : String) : ℚ :=
  ((db.fines.filter (fun f => f.userId == userId && f.status == "unpaid")).map
    Fine.amount).sum

/-- The record returned by DatabaseStorage.getDashboardStats. -/
structure DashboardStats where
  activeReservations : Nat
  availableBooks : Int
  dueSoon : Nat
  outstandingFines : ℚ
deriving Repr, DecidableEq

/-- DatabaseStorage.getDashboardStats: COUNT of the active reservations of
the user; SUM(availableCopies) over all books; COUNT of the active
reservations of the user with dueDate BETWEEN NOW() AND NOW() +
INTERVAL 3 days; and getTotalFines for the outstandingFines figure. -/
def getDashboardStats (db : DB) (userId : String) (now : Nat) : DashboardStats :=
  { activeReservations :=
      (db.reservations.filter (fun r => r.userId == userId && r.status == "active")).length
    availableBooks := (db.books.map Book.availableCopies).sum
    dueSoon :=
      (db.reservations.filter (fun r =>
        r.userId == userId && r.status == "active" &&
        decide (now ≤ r.dueDate) && decide (r.dueDate ≤ now + 3 * dayMs))).length
    outstandingFines := getTotalFines db userId }

/-!
Route handlers (server/routes.ts). Each handler is modelled as a function
from the store and the request data to (HTTP status, store). The auth
middleware has already resolved req.user.claims.sub to the callerId
argument; the Stripe-unconfigured 503 branch of the payment handlers is
outside the modelled configuration (Stripe enabled).
-/

/-- POST /api/reservations: reject with 400 when the book is missing or
availableCopies <= 0; otherwise insert an active reservation with
dueDate = now + 14 days and set the availability of the book to the
previously read availableCopies - 1, answering 201. -/
def postReservations (db : DB) (callerId : String) (bookId : Nat) (now : Nat) : Nat × DB :=
  match getBook db bookId with
  | none => (400, db)
  | some book =>
    if book.availableCopies ≤ 0 then (400, db)
    else
      let dueDate := now + 14 * dayMs
      let p := createReservation db
        { userId := callerId, bookId := bookId, dueDate := dueDate, status := "active" } now
      let db2 := updateBookAvailability p.2 bookId (book.availableCopies - 1) now
      (201, db2)

/-- PUT /api/reservations/:id: forwards the request body straight to
storage.updateReservation and answers 200; the caller identity is never
consulted. -/
def putReservationId (db : DB) (callerId : String) (rid : Nat) (upd : ReservationUpd) :
    Nat × DB :=
  (200, updateReservation db rid upd)

/-- POST /api/books: 403 unless the caller resolves to a user with role
admin; otherwise parse and insert the book, answering 201. -/
def postBooks (db : DB) (callerId : String) (ins : InsertBook) (now : Nat) : Nat × DB :=
  match getUser db callerId with
  | none => (403, db)
  | some u =>
    if u.role == "admin" then (201, (createBook db ins now).2)
    else (403, db)

/-- PUT /api/books/:id: 403 unless the caller is an admin; otherwise
update the book, answering 200. -/
def putBooksId (db : DB) (callerId : String) (bid : Nat) (upd : BookUpd) (now : Nat) :
    Nat × DB :=
  match getUser db callerId with
  | none => (403, db)
  | some u =>
    if u.role == "admin" then (200, updateBook db bid upd now)
    else (403, db)

/-- DELETE /api/books/:id: 403 unless the caller is an admin; otherwise
delete the book, answering 204. -/
def deleteBooksId (db : DB) (callerId : String) (bid : Nat) : Nat × DB :=
  match getUser db callerId with
  | none => (403, db)
  | some u =>
    if u.role == "admin" then (204, deleteBook db bid)
    else (403, db)

/-- GET /api/admin/users: 403 unless the caller is an admin; otherwise
answer 200 with getAllUsers, leaving the store unchanged. -/
def getAdminUsers (db : DB) (callerId : String) : Nat × DB :=
  match getUser db callerId with
  | none => (403, db)
  | some u =>
    if u.role == "admin" then (200, db)
    else (403, db)

/-- GET /api/admin/reservations: 403 unless the caller is an admin;
otherwise answer 200 with getActiveReservations, leaving the store
unchanged. -/
def getAdminReservations (db : DB) (callerId : String) : Nat × DB :=
  match getUser db callerId with
  | none => (403, db)
  | some u =>
    if u.role == "admin" then (200, db)
    else (403, db)

/-- POST /api/payment/confirm: look for the caller payment whose
stripePaymentIntentId equals the supplied id; when found, mark it
completed and set the caller outstandingFines to
max(0, parseFloat(outstandingFines or 0) - parseFloat(amount));
always answer 200. -/
def paymentConfirm (db : DB) (callerId : String) (intentId : String) (now : Nat) :
    Nat × DB :=
  match (getUserPayments db callerId).find?
      (fun p => p.stripePaymentIntentId == some intentId) with
  | none => (200, db)
  | some payment =>
    let db1 := updatePayment db payment.id
      { status := some "completed", completedAt := some (some now) }
    match getUser db1 callerId with
    | none => (200, db1)
    | some user =>
      let newBalance := max 0 (user.outstandingFines.getD 0 - payment.amount)
      (200, updateUser db1 callerId { outstandingFines := some (some newBalance) } now)

/-!
Helper lemmas: looking a row up after an update-by-key rewrites the row
through the update function, because the update functions preserve keys.
-/

/-- find? after a key-preserving conditional map on users. -/
lemma find_map_update_users (l : List User) (id : String) (f : User → User)
    (hf : ∀ u, (f u).id = u.id) :
    (l.map (fun u => if u.id == id then f u else u)).find? (fun u => u.id == id)
      = (l.find? (fun u => u.id == id)).map f := by
  induction l with
  | nil => rfl
  | cons u us ih =>
    by_cases h : u.id = id
    · have h1 : (u.id == id) = true := by simp [h]
      have h2 : ((f u).id == id) = true := by rw [hf]; exact h1
      rw [List.map_cons, if_pos h1, List.find?_cons, List.find?_cons, h1, h2]
      rfl
    · have h1 : (u.id == id) = false := by simp [h]
      rw [List.map_cons, if_neg (by simp [h1]), List.find?_cons, List.find?_cons, h1, ih]

/-- find? after a key-preserving conditional map on books. -/
lemma find_map_update_books (l : List Book) (id : Nat) (f : Book → Book)
    (hf : ∀ b, (f b).id = b.id) :
    (l.map (fun b => if b.id == id then f b else b)).find? (fun b => b.id == id)
      = (l.find? (fun b => b.id == id)).map f := by
  induction l with
  | nil => rfl
  | cons b bs ih =>
    by_cases h : b.id = id
    · have h1 : (b.id == id) = true := by simp [h]
      have h2 : ((f b).id == id) = true := by rw [hf]; exact h1
      rw [List.map_cons, if_pos h1, List.find?_cons, List.find?_cons, h1, h2]
      rfl
    · have h1 : (b.id == id) = false := by simp [h]
      rw [List.map_cons, if_neg (by simp [h1]), List.find?_cons, List.find?_cons, h1, ih]

/-- Reading a user back after updateUser applies the update to the stored
row. -/
lemma getUser_updateUser (db : DB) (id : String) (upd : UserUpd) (now : Nat) :
    getUser (updateUser db id upd now) id = (getUser db id).map (applyUserUpd upd now) :=
  find_map_update_users db.users id _ (fun _ => rfl)

/-- Reading a book back after updateBookAvailability rewrites its
availableCopies (and updatedAt) fields. -/
lemma getBook_updateBookAvailability (db : DB) (id : Nat) (available : Int) (now : Nat) :
    getBook (updateBookAvailability db id available now) id
      = (getBook db id).map (fun b => { b with availableCopies := available, updatedAt := now }) :=
  find_map_update_books db.books id _ (fun _ => rfl)

/-!
Concrete fixtures used by counterexamples and witnesses.
-/

/-- A user with a stored outstandingFines balance of 5 and no Fine rows. -/
def dbFines : DB :=
  { users := [{ id := "u1", outstandingFines := some 5 }] }

/-- A catalog with one available and one exhausted book. -/
def bookAvail : Book :=
  { id := 1, title := "Dune", author := "Herbert", genre := "sf",
    totalCopies := 3, availableCopies := 2 }

/-- A book with no copies left. -/
def bookGone : Book :=
  { id := 2, title := "Emma", author := "Austen", genre := "classic",
    totalCopies := 1, availableCopies := 0 }

/-- Store with the two books above and no other rows. -/
def dbBooks : DB :=
  { books := [bookAvail, bookGone], nextBookId := 3 }

/-- Claim C1: the dashboard outstanding-fines figure does NOT read the
denormalized user balance; on a user whose stored balance is 5 but who has
no Fine rows, getDashboardStats reports 0. -/
theorem C1_counterexample :
    (getDashboardStats dbFines "u1" 0).outstandingFines = 0 ∧
    (getUser dbFines "u1").map User.outstandingFines = some (some 5) ∧
    (0 : ℚ) ≠ (5 : ℚ) :=
  ⟨rfl, rfl, by norm_num⟩

/-- Claim C1 (amended): the dashboard outstanding-fines figure is the sum
of the amounts of the user unpaid Fine rows (DatabaseStorage.getTotalFines),
and it is unaffected by any update to user rows — in particular by the
stored outstandingFines balance field. -/
theorem C1_dashboard_fines_aggregate (db : DB) (userId : String) (now : Nat) :
    (getDashboardStats db userId now).outstandingFines
      = ((db.fines.filter (fun f => f.userId == userId && f.status == "unpaid")).map
          Fine.amount).sum
    ∧ ∀ (uid : String) (upd : UserUpd) (t : Nat),
        (getDashboardStats (updateUser db uid upd t) userId now).outstandingFines
          = (getDashboardStats db userId now).outstandingFines :=
  ⟨rfl, fun _ _ _ => rfl⟩

/-- Claim C2: reserving a book with availableCopies = N > 0 answers 201,
appends exactly one reservation row with status active and
dueDate = reservedAt + 14 days, and leaves the book with
availableCopies = N - 1. -/
theorem C2_reserve_available (db : DB) (callerId : String) (bookId : Nat) (now : Nat)
    (book : Book) (hb : getBook db bookId = some book)
    (hpos : 0 < book.availableCopies) :
    (postReservations db callerId bookId now).1 = 201 ∧
    (∃ newRes : Reservation,
      (postReservations db callerId bookId now).2.reservations
        = db.reservations ++ [newRes] ∧
      newRes.status = "active" ∧ newRes.userId = callerId ∧ newRes.bookId = bookId ∧
      newRes.dueDate = newRes.reservedAt + 14 * dayMs) ∧
    (∃ book2 : Book,
      getBook (postReservations db callerId bookId now).2 bookId = some book2 ∧
      book2.availableCopies = book.availableCopies - 1) := by
  have hneg : ¬ book.availableCopies ≤ 0 := by omega
  unfold postReservations
  rw [hb]
  dsimp only
  rw [if_neg hneg]
  refine ⟨rfl, ⟨_, rfl, rfl, rfl, rfl, rfl⟩, ?_⟩
  rw [getBook_updateBookAvailability]
  have hsame : getBook (createReservation db
      { userId := callerId, bookId := bookId,
        dueDate := now + 14 * dayMs, status := "active" } now).2 bookId
      = getBook db bookId := rfl
  rw [hsame, hb]
  exact ⟨_, rfl, rfl⟩

/-- Witness for C2 on the concrete catalog dbBooks: reserving book 1
(availableCopies 2) at time 0. -/
theorem C2_reserve_available_witness :
    (postReservations dbBooks "u7" 1 0).1 = 201 ∧
    (∃ newRes : Reservation,
      (postReservations dbBooks "u7" 1 0).2.reservations
        = dbBooks.reservations ++ [newRes] ∧
      newRes.status = "active" ∧ newRes.userId = "u7" ∧ newRes.bookId = 1 ∧
      newRes.dueDate = newRes.reservedAt + 14 * dayMs) ∧
    (∃ book2 : Book,
      getBook (postReservations dbBooks "u7" 1 0).2 1 = some book2 ∧
      book2.availableCopies = bookAvail.availableCopies - 1) :=
  C2_reserve_available dbBooks "u7" 1 0 bookAvail rfl (by decide)

/-- Claim C3: a reservation request on a book with availableCopies = 0, or
on a missing book, answers 400 and leaves the store untouched (no
reservation row, availability unchanged). -/
theorem C3_reserve_unavailable (db : DB) (callerId : String) (bookId : Nat) (now : Nat)
    (h : getBook db bookId = none ∨
      ∃ book, getBook db bookId = some book ∧ book.availableCopies = 0) :
    postReservations db callerId bookId now = (400, db) := by
  unfold postReservations
  rcases h with h | ⟨book, hb, h0⟩
  · rw [h]
  · rw [hb]
    dsimp only
    rw [if_pos (le_of_eq h0)]

/-- Witness for C3 on the concrete catalog dbBooks: reserving book 2
(availableCopies 0). -/
theorem C3_reserve_unavailable_witness :
    postReservations dbBooks "u7" 2 5 = (400, dbBooks) :=
  C3_reserve_unavailable dbBooks "u7" 2 5 (Or.inr ⟨bookGone, rfl, rfl⟩)

/-- A reservation of user u1 on book 1. -/
def resU1 : Reservation :=
  { id := 1, userId := "u1", bookId := 1, status := "active", reservedAt := 0,
    dueDate := 14 * dayMs }

/-- A reservation of user u2 on book 2. -/
def resU2 : Reservation :=
  { id := 2, userId := "u2", bookId := 2, status := "active", reservedAt := 0,
    dueDate := 14 * dayMs }

/-- Store holding the two books and the two reservations above. -/
def dbRes : DB :=
  { books := [bookAvail, bookGone], reservations := [resU1, resU2],
    nextBookId := 3, nextReservationId := 3 }

/-- The body of a completion request: status completed, completedAt set. -/
def updComplete : ReservationUpd :=
  { status := some "completed", completedAt := some (some (7 * dayMs)) }

/-- Claim C4: the reservation-update operation only rewrites reservation
rows: it answers 200, leaves every book row and every user row exactly as
it was (availableCopies is never restored on completion), and keeps every
reservation with a different id untouched. -/
theorem C4_completion_never_restores_copies (db : DB) (callerId : String) (rid : Nat)
    (upd : ReservationUpd) :
    (putReservationId db callerId rid upd).1 = 200 ∧
    (putReservationId db callerId rid upd).2.books = db.books ∧
    (putReservationId db callerId rid upd).2.users = db.users ∧
    (putReservationId db callerId rid upd).2.fines = db.fines ∧
    (putReservationId db callerId rid upd).2.payments = db.payments ∧
    ∀ r ∈ db.reservations, r.id ≠ rid →
      r ∈ (putReservationId db callerId rid upd).2.reservations := by
  refine ⟨rfl, rfl, rfl, rfl, rfl, ?_⟩
  intro r hr hne
  show r ∈ db.reservations.map (fun x => if x.id == rid then applyReservationUpd upd x else x)
  have hx : (if r.id == rid then applyReservationUpd upd r else r) = r := by
    rw [if_neg (by simp [hne])]
  exact hx ▸ List.mem_map_of_mem _ hr

/-- Witness for C4: completing reservation 1 in dbRes leaves both book
rows (in particular the availableCopies of book 1) and the other
reservation untouched. -/
theorem C4_completion_never_restores_copies_witness :
    (putReservationId dbRes "u1" 1 updComplete).1 = 200 ∧
    (putReservationId dbRes "u1" 1 updComplete).2.books = dbRes.books ∧
    resU2 ∈ (putReservationId dbRes "u1" 1 updComplete).2.reservations :=
  ⟨(C4_completion_never_restores_copies dbRes "u1" 1 updComplete).1,
   (C4_completion_never_restores_copies dbRes "u1" 1 updComplete).2.1,
   (C4_completion_never_restores_copies dbRes "u1" 1 updComplete).2.2.2.2.2
     resU2 (by decide) (by decide)⟩

/-- Claim C7: every admin-gated operation (book create, book update, book
delete, admin user listing, admin reservation listing) answers 403 and
leaves the store unchanged when the caller resolves to a user whose role
is not admin. -/
theorem C7_non_admin_rejected (db : DB) (callerId : String) (u : User)
    (hu : getUser db callerId = some u) (hrole : u.role ≠ "admin")
    (ins : InsertBook) (bid : Nat) (bupd : BookUpd) (now : Nat) :
    postBooks db callerId ins now = (403, db) ∧
    putBooksId db callerId bid bupd now = (403, db) ∧
    deleteBooksId db callerId bid = (403, db) ∧
    getAdminUsers db callerId = (403, db) ∧
    getAdminReservations db callerId = (403, db) := by
  have hb : (u.role == "admin") = false := by simp [hrole]
  unfold postBooks putBooksId deleteBooksId getAdminUsers getAdminReservations
  rw [hu]
  dsimp only
  rw [hb]
  simp only [Bool.false_eq_true, if_false, and_self]

/-- Witness for C7: a plain user u1 hitting all five admin-gated
operations of dbFines. -/
theorem C7_non_admin_rejected_witness :
    postBooks dbFines "u1" { title := "t", author := "a", genre := "g" } 0 = (403, dbFines) ∧
    putBooksId dbFines "u1" 1 {} 0 = (403, dbFines) ∧
    deleteBooksId dbFines "u1" 1 = (403, dbFines) ∧
    getAdminUsers dbFines "u1" = (403, dbFines) ∧
    getAdminReservations dbFines "u1" = (403, dbFines) :=
  C7_non_admin_rejected dbFines "u1" { id := "u1", outstandingFines := some 5 }
    rfl (by decide) { title := "t", author := "a", genre := "g" } 1 {} 0

/-- Store with a single admin user. -/
def dbAdmin : DB :=
  { users := [{ id := "a1", role := "admin" }] }

/-- A book payload whose availableCopies exceeds its totalCopies. -/
def insBad : InsertBook :=
  { title := "t", author := "a", genre := "g", totalCopies := 1, availableCopies := 5 }

/-- Claim C8: no operation enforces availableCopies ≤ totalCopies — the
book-create operation accepts a payload with availableCopies = 5 and
totalCopies = 1 and stores it verbatim. -/
theorem C8_invariant_unenforced :
    ∃ (db : DB) (callerId : String) (ins : InsertBook) (now : Nat),
      (postBooks db callerId ins now).1 = 201 ∧
      ∃ b ∈ (postBooks db callerId ins now).2.books,
        b.totalCopies < b.availableCopies := by
  exact ⟨dbAdmin, "a1", insBad, 0, rfl, by decide⟩

/-- Claim C10: the reservation-update operation has no ownership or role
check: any authenticated caller updating any existing reservation id —
also one owned by a different user — gets 200 and the caller-supplied
field updates are applied to the row. -/
theorem C10_no_ownership_check (db : DB) (callerId : String) (rid : Nat)
    (upd : ReservationUpd) (r : Reservation) (hr : r ∈ db.reservations)
    (hid : r.id = rid) :
    (putReservationId db callerId rid upd).1 = 200 ∧
    applyReservationUpd upd r ∈ (putReservationId db callerId rid upd).2.reservations := by
  refine ⟨rfl, ?_⟩
  show _ ∈ db.reservations.map (fun x => if x.id == rid then applyReservationUpd upd x else x)
  have hx : (if r.id == rid then applyReservationUpd upd r else r)
      = applyReservationUpd upd r := by
    rw [if_pos (by simp [hid])]
  exact hx ▸ List.mem_map_of_mem _ hr

/-- Witness for C10: caller u1 completes reservation 2, which belongs to
u2, and the update is applied. -/
theorem C10_no_ownership_check_witness :
    (putReservationId dbRes "u1" 2 updComplete).1 = 200 ∧
    applyReservationUpd updComplete resU2
      ∈ (putReservationId dbRes "u1" 2 updComplete).2.reservations :=
  C10_no_ownership_check dbRes "u1" 2 updComplete resU2 (by decide) rfl

/-- A pending payment of 5 for user u1 with a known payment-intent id. -/
def payPi : Payment :=
  { id := 1, userId := "u1", amount := 5, stripePaymentIntentId := some "pi_1" }

/-- User u1 with a stored balance of 2. -/
def userPay : User :=
  { id := "u1", outstandingFines := some 2 }

/-- Store with userPay and the pending payment payPi. -/
def dbPay : DB :=
  { users := [userPay], payments := [payPi], nextPaymentId := 2 }

/-- Claim C5: confirming a payment does NOT always decrement the stored
balance by the paid amount: with a previous balance of 2 and a paid amount
of 5, the stored balance afterwards is 0, not 2 - 5 = -3. -/
theorem C5_counterexample :
    (getUser dbPay "u1").map User.outstandingFines = some (some 2) ∧
    payPi.amount = 5 ∧
    (getUser (paymentConfirm dbPay "u1" "pi_1" 9).2 "u1").map User.outstandingFines
      = some (some 0) ∧
    (2 : ℚ) - 5 ≠ (0 : ℚ) := by
  refine ⟨rfl, rfl, ?_, by norm_num⟩
  have h1 : (getUser (paymentConfirm dbPay "u1" "pi_1" 9).2 "u1").map User.outstandingFines
      = some (some (max 0 ((2 : ℚ) - 5))) := rfl
  rw [h1, max_eq_left (by norm_num : (2 : ℚ) - 5 ≤ 0)]

/-- Claim C5 (amended): confirming a payment whose intent id matches one
of the caller recorded payments marks that payment row completed and sets
the stored balance to max(0, previous balance - paid amount) — a plain
decrement only when the amount does not exceed the balance. -/
theorem C5_payment_confirm_clamped (db : DB) (callerId intentId : String) (now : Nat)
    (payment : Payment) (user : User)
    (hp : (getUserPayments db callerId).find?
        (fun p => p.stripePaymentIntentId == some intentId) = some payment)
    (hu : getUser db callerId = some user) :
    (paymentConfirm db callerId intentId now).1 = 200 ∧
    (paymentConfirm db callerId intentId now).2.payments
      = db.payments.map (fun p =>
          if p.id == payment.id
          then { p with status := "completed", completedAt := some now } else p) ∧
    (getUser (paymentConfirm db callerId intentId now).2 callerId).map User.outstandingFines
      = some (some (max 0 (user.outstandingFines.getD 0 - payment.amount))) := by
  unfold paymentConfirm
  rw [hp]
  dsimp only
  have h1 : getUser (updatePayment db payment.id
      { status := some "completed", completedAt := some (some now) }) callerId
      = some user := hu
  rw [h1]
  dsimp only
  refine ⟨rfl, rfl, ?_⟩
  rw [getUser_updateUser, h1]
  rfl

/-- Witness for the amended C5 on dbPay. -/
theorem C5_payment_confirm_clamped_witness :
    (paymentConfirm dbPay "u1" "pi_1" 9).1 = 200 ∧
    (paymentConfirm dbPay "u1" "pi_1" 9).2.payments
      = dbPay.payments.map (fun p =>
          if p.id == payPi.id
          then { p with status := "completed", completedAt := some 9 } else p) ∧
    (getUser (paymentConfirm dbPay "u1" "pi_1" 9).2 "u1").map User.outstandingFines
      = some (some (max 0 (userPay.outstandingFines.getD 0 - payPi.amount))) :=
  C5_payment_confirm_clamped dbPay "u1" "pi_1" 9 payPi userPay rfl rfl

/-- Claim C9: after a payment confirmation with a matching record, the new
stored balance is exactly max(0, previous balance - paid amount); in
particular it is never negative. -/
theorem C9_balance_never_negative (db : DB) (callerId intentId : String) (now : Nat)
    (payment : Payment) (user : User)
    (hp : (getUserPayments db callerId).find?
        (fun p => p.stripePaymentIntentId == some intentId) = some payment)
    (hu : getUser db callerId = some user) :
    ∃ q : ℚ,
      (getUser (paymentConfirm db callerId intentId now).2 callerId).map
        User.outstandingFines = some (some q) ∧
      q = max 0 (user.outstandingFines.getD 0 - payment.amount) ∧ 0 ≤ q := by
  unfold paymentConfirm
  rw [hp]
  dsimp only
  have h1 : getUser (updatePayment db payment.id
      { status := some "completed", completedAt := some (some now) }) callerId
      = some user := hu
  rw [h1]
  dsimp only
  refine ⟨_, ?_, rfl, le_max_left 0 _⟩
  rw [getUser_updateUser, h1]
  rfl

/-- Witness for C9 on dbPay: amount 5 against balance 2 leaves a
nonnegative balance. -/
theorem C9_balance_never_negative_witness :
    ∃ q : ℚ,
      (getUser (paymentConfirm dbPay "u1" "pi_1" 9).2 "u1").map
        User.outstandingFines = some (some q) ∧
      q = max 0 (userPay.outstandingFines.getD 0 - payPi.amount) ∧ 0 ≤ q :=
  C9_balance_never_negative dbPay "u1" "pi_1" 9 payPi userPay rfl rfl

/-- Claim C6: the dashboard dueSoon figure counts exactly the reservations
of the user that are active with dueDate in the inclusive window
[now, now + 3 days]; any other status or any dueDate outside the window is
not counted. -/
theorem C6_due_soon_window (db : DB) (userId : String) (now : Nat) :
    (getDashboardStats db userId now).dueSoon
      = db.reservations.countP (fun r =>
          decide (r.userId = userId ∧ r.status = "active" ∧
            now ≤ r.dueDate ∧ r.dueDate ≤ now + 3 * dayMs)) := by
  show (db.reservations.filter _).length = _
  rw [List.countP_eq_length_filter]
  have hpt : ∀ r ∈ db.reservations,
      (r.userId == userId && r.status == "active" &&
        decide (now ≤ r.dueDate) && decide (r.dueDate ≤ now + 3 * dayMs))
        = decide (r.userId = userId ∧ r.status = "active" ∧
            now ≤ r.dueDate ∧ r.dueDate ≤ now + 3 * dayMs) := by
    intro r _
    by_cases h1 : r.userId = userId <;> by_cases h2 : r.status = "active" <;>
      by_cases h3 : now ≤ r.dueDate <;> by_cases h4 : r.dueDate ≤ now + 3 * dayMs <;>
      simp [h1, h2, h3, h4]
  rw [List.filter_congr hpt]

end LibraryFlow
